import Mathlib

/-!
# myfs (fusexmp.c): a two-replica FUSE bridge

A shallow embedding of the replication and placement code of `src/fusexmp.c`.

* The operating system (the "physical I/O collaborator") is a parameter: a
  `Kernel σ` answers one system call at a time over a world state `σ`.  Every
  callback `xmp_*` is a state-passing function over an arbitrary kernel.
* `logged` wraps a kernel so that the calls a callback issues, with their
  answers, are recorded in order.
* `posix` is one concrete kernel: a flat table of regular files, a descriptor
  table, files that cannot grow (replica out of space) and the future outputs
  of `rand()`.
* C `int` / `size_t` conversions are explicit (`toInt`, `toSizeT`); an index
  computed in `int` that leaves the range of `int` is undefined.
* The staging pointers of `xmp_write` are declared and never assigned in the
  source; they are inputs of the model (`Ptr`): either a pointer with no
  accessible memory behind it, or a pointer to an accessible region.  A store
  through the former, or past the end of the latter, is undefined.
-/

namespace Myfs

/-! ## System calls -/

def ENOENT : ℕ+ := 2
def EBADF : ℕ+ := 9
def EFAULT : ℕ+ := 14
def EINVAL : ℕ+ := 22
def ENOSPC : ℕ+ := 28
def ENOSYS : ℕ+ := 38
def EOPNOTSUPP : ℕ+ := 95

def O_RDONLY : Nat := 0
def O_WRONLY : Nat := 1

/-- The system calls issued by the modelled callbacks.  In
`pwrite fd src count offset`, which stands for `pwrite(fd, ptr, count, offset)`,
`src` is `some data` when the `count` bytes at `ptr` are accessible (`data` are
those bytes) and `none` when they are not. -/
inductive Call
  | rand
  | mkdir (path : String) (mode : Nat)
  | unlink (path : String)
  | rmdir (path : String)
  | chmod (path : String) (mode : Nat)
  | lchown (path : String) (uid gid : Nat)
  | truncate (path : String) (size : Nat)
  | utimensat (path : String) (atime mtime : Nat)
  | lsetxattr (path name : String) (value : List Nat) (flags : Nat)
  | lremovexattr (path name : String)
  | rename (oldpath newpath : String)
  | open_ (path : String) (flags : Nat)
  | close (fd : Nat)
  | pread (fd : Nat) (count : Nat) (offset : Nat)
  | pwrite (fd : Nat) (src : Option (List Nat)) (count : Nat) (offset : Nat)
  | posix_fallocate (fd : Nat) (offset len : Nat)
  deriving DecidableEq

/-- The answer of a system call.  `err e` is the C result `-1` with
`errno = e` (system error numbers are positive); `ok val data` is the
non-negative result `val`, with `data` the bytes deposited in the caller's
buffer (`pread` only).  For `posix_fallocate`, which reports its error number
as its return value, `err e` is the return value `e` and `ok 0 []` is `0`. -/
inductive Ret
  | ok (val : Nat) (data : List Nat)
  | err (errno : ℕ+)
  deriving DecidableEq

/-- The numeric result carried by a successful answer (`rand()` cannot fail). -/
def Ret.val : Ret → Nat
  | Ret.ok v _ => v
  | Ret.err _ => 0

def Ret.isOk : Ret → Bool
  | Ret.ok _ _ => true
  | Ret.err _ => false

/-- One system call at a time: the answer and the world after the call. -/
abbrev Kernel (σ : Type) := Call → σ → Ret × σ

/-- The same kernel, recording every call with its answer. -/
def logged {σ : Type} (k : Kernel σ) : Kernel (σ × List (Call × Ret)) :=
  fun c st => ((k c st.1).1, ((k c st.1).2, st.2 ++ [(c, (k c st.1).1)]))

/-! ## C integer conversions -/

/-- Conversion of an integer value to a 32-bit C `int` (two's complement wrap). -/
def toInt (x : Int) : Int := (x + 2 ^ 31) % 2 ^ 32 - 2 ^ 31

/-- Conversion of an integer value to a 64-bit `size_t`. -/
def toSizeT (x : Int) : Nat := (x % 2 ^ 64).toNat

/-! ## The program -/

/-- The two replica roots: `global_context`. -/
structure GlobalContext where
  driveA : String
  driveB : String
  deriving DecidableEq

/-- The loop shared by the mirrored callbacks:
`for (i = 0; i < 2; ++i) { res = call(fullpaths[i]); if (res == -1) return -errno; } return 0;` -/
def forEachReplica {σ : Type} (k : Kernel σ) (call : String → Call) :
    List String → σ → Int × σ
  | [], s => (0, s)
  | fullpath :: rest, s =>
    match k (call fullpath) s with
    | (Ret.err e, s1) => (-((e : Nat) : Int), s1)
    | (Ret.ok _ _, s1) => forEachReplica k call rest s1

def xmp_mkdir {σ : Type} (k : Kernel σ) (ctx : GlobalContext)
    (path : String) (mode : Nat) (s : σ) : Int × σ :=
  forEachReplica k (fun fullpath => Call.mkdir fullpath mode)
    [ctx.driveA ++ path, ctx.driveB ++ path] s

def xmp_unlink {σ : Type} (k : Kernel σ) (ctx : GlobalContext)
    (path : String) (s : σ) : Int × σ :=
  forEachReplica k (fun fullpath => Call.unlink fullpath)
    [ctx.driveA ++ path, ctx.driveB ++ path] s

def xmp_rmdir {σ : Type} (k : Kernel σ) (ctx : GlobalContext)
    (path : String) (s : σ) : Int × σ :=
  forEachReplica k (fun fullpath => Call.rmdir fullpath)
    [ctx.driveA ++ path, ctx.driveB ++ path] s

def xmp_chmod {σ : Type} (k : Kernel σ) (ctx : GlobalContext)
    (path : String) (mode : Nat) (s : σ) : Int × σ :=
  forEachReplica k (fun fullpath => Call.chmod fullpath mode)
    [ctx.driveA ++ path, ctx.driveB ++ path] s

def xmp_chown {σ : Type} (k : Kernel σ) (ctx : GlobalContext)
    (path : String) (uid gid : Nat) (s : σ) : Int × σ :=
  forEachReplica k (fun fullpath => Call.lchown fullpath uid gid)
    [ctx.driveA ++ path, ctx.driveB ++ path] s

def xmp_truncate {σ : Type} (k : Kernel σ) (ctx : GlobalContext)
    (path : String) (size : Nat) (s : σ) : Int × σ :=
  forEachReplica k (fun fullpath => Call.truncate fullpath size)
    [ctx.driveA ++ path, ctx.driveB ++ path] s

def xmp_utimens {σ : Type} (k : Kernel σ) (ctx : GlobalContext)
    (path : String) (atime mtime : Nat) (s : σ) : Int × σ :=
  forEachReplica k (fun fullpath => Call.utimensat fullpath atime mtime)
    [ctx.driveA ++ path, ctx.driveB ++ path] s

def xmp_setxattr {σ : Type} (k : Kernel σ) (ctx : GlobalContext)
    (path name : String) (value : List Nat) (flags : Nat) (s : σ) : Int × σ :=
  forEachReplica k (fun fullpath => Call.lsetxattr fullpath name value flags)
    [ctx.driveA ++ path, ctx.driveB ++ path] s

def xmp_removexattr {σ : Type} (k : Kernel σ) (ctx : GlobalContext)
    (path name : String) (s : σ) : Int × σ :=
  forEachReplica k (fun fullpath => Call.lremovexattr fullpath name)
    [ctx.driveA ++ path, ctx.driveB ++ path] s

/-- The replica chosen by `rand() % 2 == 0 ? driveA : driveB`. -/
def pickDrive (ctx : GlobalContext) (r : Ret) : String :=
  if r.val % 2 = 0 then ctx.driveA else ctx.driveB

/-- Callback `xmp_rename`: one source path under a randomly chosen replica, renamed
to the destination under replica A and then under replica B. -/
def xmp_rename {σ : Type} (k : Kernel σ) (ctx : GlobalContext)
    (from_ to_ : String) (s : σ) : Int × σ :=
  match k Call.rand s with
  | (r, s1) =>
    forEachReplica k (fun write_fullpath => Call.rename (pickDrive ctx r ++ from_) write_fullpath)
      [ctx.driveA ++ to_, ctx.driveB ++ to_] s1

/-- Callback `xmp_read`: the result and the bytes deposited in `buf`. -/
def xmp_read {σ : Type} (k : Kernel σ) (ctx : GlobalContext)
    (path : String) (size offset : Nat) (s : σ) : (Int × List Nat) × σ :=
  match k Call.rand s with
  | (r, s1) =>
    match k (Call.open_ (pickDrive ctx r ++ path) O_RDONLY) s1 with
    | (Ret.err e, s2) => ((-((e : Nat) : Int), []), s2)
    | (Ret.ok fd _, s2) =>
      match k (Call.pread fd size offset) s2 with
      | (Ret.err e, s3) => ((-((e : Nat) : Int), []), (k (Call.close fd) s3).2)
      | (Ret.ok n data, s3) => ((toInt n, data), (k (Call.close fd) s3).2)

/-- The value of a staging pointer (`char *driveA; char *driveB;`).  The source
never assigns either pointer, so the value is indeterminate: `wild` has no
accessible memory behind it, `region mem` points to an accessible region that
currently holds `mem` (its capacity is `mem.length`). -/
inductive Ptr
  | wild
  | region (mem : List Nat)
  deriving DecidableEq

/-- The staging loop `for (int f = 0; f < n; f++) drive[f] = buf[base + f];`.
The result is the pointer with the memory behind it after the loop; `none` is
undefined behaviour: the index `base + f` leaves the range of `int`, `buf` is
read outside its bounds, or the store goes through a wild pointer or past the
end of the region. -/
def copyBytes (buf : List Nat) (base : Nat) : Ptr → Nat → Option Ptr
  | drive, 0 => some drive
  | drive, n + 1 =>
    match copyBytes buf base drive n with
    | none => none
    | some Ptr.wild => none
    | some (Ptr.region mem) =>
      if 2 ^ 31 ≤ base + n then none
      else
        match buf[base + n]? with
        | none => none
        | some b => if n < mem.length then some (Ptr.region (mem.set n b)) else none

/-- What `pwrite` is handed as its buffer: the `count` bytes at the pointer when
they are accessible. -/
def srcBytes : Ptr → Nat → Option (List Nat)
  | Ptr.wild, _ => none
  | Ptr.region mem, count => if count ≤ mem.length then some (mem.take count) else none

/-- How a run of `xmp_write` ends: it returns `res`, or it reaches undefined
behaviour in a staging loop; `s` is the world at that point. -/
inductive Outcome (σ : Type)
  | returned (res : Int) (s : σ)
  | undefined (s : σ)

def Outcome.state {σ : Type} : Outcome σ → σ
  | Outcome.returned _ s => s
  | Outcome.undefined s => s

def Outcome.result {σ : Type} : Outcome σ → Option Int
  | Outcome.returned res _ => some res
  | Outcome.undefined _ => none

/-- Callback `xmp_write`.  `driveA`, `driveB` are the values of the two staging
pointers; `buf` holds the bytes of the caller and `size` is the length argument.
The two loop iterations are written out (`i = 0`, then `i = 1`); `res` of
iteration 0 is overwritten in iteration 1 before it is read, so only the second
`pwrite` decides the returned value.  A successful byte count is taken not to
wrap to `-1` in the conversion to `int`. -/
def xmp_write {σ : Type} (k : Kernel σ) (ctx : GlobalContext) (driveA driveB : Ptr)
    (path : String) (buf : List Nat) (size offset : Nat) (s : σ) : Outcome σ :=
  let spareSize : Int := if size > 512 then toInt ((size : Int) - 512) else 0
  let size : Nat := if size > 512 then 512 else size
  -- i = 0
  match k (Call.open_ (ctx.driveA ++ path) O_WRONLY) s with
  | (Ret.err e, s1) => Outcome.returned (-((e : Nat) : Int)) s1
  | (Ret.ok fd0 _, s1) =>
    match copyBytes buf 0 driveA size with
    | none => Outcome.undefined s1
    | some stagedA =>
      match k (Call.pwrite fd0 (srcBytes stagedA size) size offset) s1 with
      | (_, s2) =>
        -- res of iteration 0 is not read again
        match k (Call.close fd0) s2 with
        | (_, s3) =>
          -- i = 1
          match k (Call.open_ (ctx.driveB ++ path) O_WRONLY) s3 with
          | (Ret.err e, s4) => Outcome.returned (-((e : Nat) : Int)) s4
          | (Ret.ok fd1 _, s4) =>
            match (if spareSize ≠ 0 then copyBytes buf 512 driveB spareSize.toNat
                   else some driveB) with
            | none => Outcome.undefined s4
            | some stagedB =>
              match k (Call.pwrite fd1 (srcBytes stagedB (toSizeT spareSize))
                  (toSizeT spareSize) offset) s4 with
              | (Ret.err e, s5) =>
                Outcome.returned (-((e : Nat) : Int)) (k (Call.close fd1) s5).2
              | (Ret.ok n _, s5) => Outcome.returned (toInt n) (k (Call.close fd1) s5).2

/-- Callback `xmp_fallocate`.  The two loop iterations are written out. -/
def xmp_fallocate {σ : Type} (k : Kernel σ) (ctx : GlobalContext)
    (path : String) (mode : Int) (offset length : Nat) (s : σ) : Int × σ :=
  if mode ≠ 0 then (-((EOPNOTSUPP : Nat) : Int), s)
  else
    -- i = 0
    match k (Call.open_ (ctx.driveA ++ path) O_WRONLY) s with
    | (Ret.err e, s1) => (-((e : Nat) : Int), s1)
    | (Ret.ok fd0 _, s1) =>
      match k (Call.posix_fallocate fd0 offset length) s1 with
      | (_, s2) =>
        -- res of iteration 0 is not read again
        match k (Call.close fd0) s2 with
        | (_, s3) =>
          -- i = 1
          match k (Call.open_ (ctx.driveB ++ path) O_WRONLY) s3 with
          | (Ret.err e, s4) => (-((e : Nat) : Int), s4)
          | (Ret.ok fd1 _, s4) =>
            match k (Call.posix_fallocate fd1 offset length) s4 with
            | (Ret.err e, s5) => (-((e : Nat) : Int), (k (Call.close fd1) s5).2)
            | (Ret.ok v _, s5) => (-(v : Int), (k (Call.close fd1) s5).2)

/-- The outcome of `main`. -/
inductive MainResult
  | usage (status : Nat)
  | overflow
  | mounted (ctx : GlobalContext) (fuse_argv : List String)
  deriving DecidableEq

/-- The call `strcpy` into a `char[512]` field: the string with its terminator
must fit, anything longer writes past the field. -/
def strcpy512 (src : String) : Option String :=
  if src.utf8ByteSize < 512 then some src else none

/-- Program entry `main`: `argc` is the length of `argv`.  `usage status` is the `exit(status)`
after the usage line; `mounted ctx args` is the call of `fuse_main` on the first
`argc` entries of `argv` (after both decrements) with `global_context = ctx`. -/
def main (argv : List String) : MainResult :=
  let argc := argv.length
  if argc < 4 then MainResult.usage 1
  else
    let argc := argc - 1
    match strcpy512 (argv.getD argc "") with
    | none => MainResult.overflow
    | some driveA =>
      let argc := argc - 1
      match strcpy512 (argv.getD argc "") with
      | none => MainResult.overflow
      | some driveB => MainResult.mounted { driveA := driveA, driveB := driveB } (argv.take argc)

/-! ## A concrete kernel -/

/-- A flat POSIX-like world: regular files by physical path, open descriptors
(`fd`, path, flags), files that cannot take more data (their replica is out of
space), and the values `rand()` will return. -/
structure Disk where
  files : List (String × List Nat)
  fds : List (Nat × String × Nat)
  noSpace : List String
  rands : List Nat
  deriving DecidableEq

/-- The lowest descriptor number not in the table, searching from `n`. -/
def lowestFree (fds : List (Nat × String × Nat)) : Nat → Nat → Nat
  | 0, n => n
  | fuel + 1, n => if (fds.lookup n).isSome then lowestFree fds fuel (n + 1) else n

/-- Replace (or create) the file at `path`. -/
def setFile (files : List (String × List Nat)) (path : String) (content : List Nat) :
    List (String × List Nat) :=
  (path, content) :: files.filter (fun e => e.1 ≠ path)

/-- File content after writing `data` at `offset`: a hole before `offset` reads as zeros. -/
def writeAt (content : List Nat) (offset : Nat) (data : List Nat) : List Nat :=
  (content ++ List.replicate (offset - content.length) 0).take offset ++ data ++
    content.drop (offset + data.length)

/-- The concrete kernel.  Calls outside the modelled fragment (directories,
metadata, extended attributes) answer `ENOSYS`; all files live on one device.
A `pwrite` whose buffer is not accessible answers `EFAULT`; one that carries
no byte leaves the file as it is. -/
def posix : Kernel Disk
  | Call.rand, d =>
    match d.rands with
    | [] => (Ret.ok 0 [], d)
    | r :: rest => (Ret.ok r [], { d with rands := rest })
  | Call.open_ path flags, d =>
    match d.files.lookup path with
    | none => (Ret.err ENOENT, d)
    | some _ =>
      (Ret.ok (lowestFree d.fds d.fds.length 0) [],
        { d with fds := (lowestFree d.fds d.fds.length 0, path, flags) :: d.fds })
  | Call.close fd, d =>
    match d.fds.lookup fd with
    | none => (Ret.err EBADF, d)
    | some _ => (Ret.ok 0 [], { d with fds := d.fds.filter (fun e => e.1 ≠ fd) })
  | Call.pread fd count offset, d =>
    match d.fds.lookup fd with
    | none => (Ret.err EBADF, d)
    | some (path, flags) =>
      if flags = O_WRONLY then (Ret.err EBADF, d)
      else
        match d.files.lookup path with
        | none => (Ret.err EBADF, d)
        | some content =>
          (Ret.ok ((content.drop offset).take count).length ((content.drop offset).take count), d)
  | Call.pwrite fd src _ offset, d =>
    match d.fds.lookup fd with
    | none => (Ret.err EBADF, d)
    | some (path, flags) =>
      if flags = O_RDONLY then (Ret.err EBADF, d)
      else
        match src with
        | none => (Ret.err EFAULT, d)
        | some data =>
          match d.files.lookup path with
          | none => (Ret.err EBADF, d)
          | some content =>
            if data = [] then (Ret.ok 0 [], d)
            else if path ∈ d.noSpace then (Ret.err ENOSPC, d)
            else (Ret.ok data.length [],
              { d with files := setFile d.files path (writeAt content offset data) })
  | Call.posix_fallocate fd offset len, d =>
    match d.fds.lookup fd with
    | none => (Ret.err EBADF, d)
    | some (path, flags) =>
      if flags = O_RDONLY then (Ret.err EBADF, d)
      else if len = 0 then (Ret.err EINVAL, d)
      else
        match d.files.lookup path with
        | none => (Ret.err EBADF, d)
        | some content =>
          if offset + len ≤ content.length then (Ret.ok 0 [], d)
          else if path ∈ d.noSpace then (Ret.err ENOSPC, d)
          else (Ret.ok 0 [],
            { d with files :=
                setFile d.files path (content ++ List.replicate (offset + len - content.length) 0) })
  | Call.rename oldpath newpath, d =>
    match d.files.lookup oldpath with
    | none => (Ret.err ENOENT, d)
    | some content =>
      if oldpath = newpath then (Ret.ok 0 [], d)
      else (Ret.ok 0 [],
        { d with files := setFile (d.files.filter (fun e => e.1 ≠ oldpath)) newpath content })
  | Call.unlink path, d =>
    match d.files.lookup path with
    | none => (Ret.err ENOENT, d)
    | some _ => (Ret.ok 0 [], { d with files := d.files.filter (fun e => e.1 ≠ path) })
  | Call.truncate path size, d =>
    match d.files.lookup path with
    | none => (Ret.err ENOENT, d)
    | some content =>
      (Ret.ok 0 [],
        { d with files :=
            setFile d.files path ((content ++ List.replicate (size - content.length) 0).take size) })
  | _, d => (Ret.err ENOSYS, d)

/-! ## Observations on a run -/

/-- The calls a run of `xmp_write` issues, with their answers, in order. -/
def xmp_write_log {σ : Type} (k : Kernel σ) (ctx : GlobalContext) (driveA driveB : Ptr)
    (path : String) (buf : List Nat) (size offset : Nat) (s : σ) : List (Call × Ret) :=
  (xmp_write (logged k) ctx driveA driveB path buf size offset (s, [])).state.2

/-- Every `open` recorded in the log succeeded. -/
def opensSucceed (log : List (Call × Ret)) : Bool :=
  log.all (fun e => match e.1 with
    | Call.open_ _ _ => e.2.isOk
    | _ => true)

/-- A write of `buf` at `offset` immediately followed by a read of the same
length at the same offset: the result of the write, and the result and bytes
of the read. -/
def writeThenRead {σ : Type} (k : Kernel σ) (ctx : GlobalContext) (driveA driveB : Ptr)
    (path : String) (buf : List Nat) (offset : Nat) (s : σ) : Option (Int × (Int × List Nat)) :=
  match xmp_write k ctx driveA driveB path buf buf.length offset s with
  | Outcome.undefined _ => none
  | Outcome.returned w s1 => some (w, (xmp_read k ctx path buf.length offset s1).1)

/-- The calls a run of `xmp_fallocate` issues, with their answers, in order. -/
def xmp_fallocate_log {σ : Type} (k : Kernel σ) (ctx : GlobalContext)
    (path : String) (mode : Int) (offset length : Nat) (s : σ) : List (Call × Ret) :=
  (xmp_fallocate (logged k) ctx path mode offset length (s, [])).2.2

/-- The aggregation rule for a mirrored operation, given the answer `rA` of the
call on replica A, the answer `rB` of the call on replica B and the value the
callback returns: `0` exactly when both succeeded, `-e` when A failed with `e`
(whatever `rB` is), `-e` when A succeeded and B failed with `e`. -/
def Aggregated (rA rB : Ret) (result : Int) : Prop :=
  (result = 0 ↔ rA.isOk = true ∧ rB.isOk = true) ∧
  (∀ e : ℕ+, rA = Ret.err e → result = -((e : Nat) : Int)) ∧
  (∀ e : ℕ+, rA.isOk = true → rB = Ret.err e → result = -((e : Nat) : Int))

/-- The call sequence of `xmp_write` once its two staging loops are resolved
(used to reason about `xmp_write`): `stagedA`, `stagedB` are `none` when the
loop is undefined, else the buffer handed to `pwrite`. -/
def writeSeq {σ : Type} (k : Kernel σ) (ctx : GlobalContext) (path : String)
    (stagedA : Option (Option (List Nat))) (countA : Nat)
    (stagedB : Option (Option (List Nat))) (countB : Nat) (offset : Nat) (s : σ) : Outcome σ :=
  match k (Call.open_ (ctx.driveA ++ path) O_WRONLY) s with
  | (Ret.err e, s1) => Outcome.returned (-((e : Nat) : Int)) s1
  | (Ret.ok fd0 _, s1) =>
    match stagedA with
    | none => Outcome.undefined s1
    | some srcA =>
      match k (Call.open_ (ctx.driveB ++ path) O_WRONLY)
          (k (Call.close fd0) (k (Call.pwrite fd0 srcA countA offset) s1).2).2 with
      | (Ret.err e, s4) => Outcome.returned (-((e : Nat) : Int)) s4
      | (Ret.ok fd1 _, s4) =>
        match stagedB with
        | none => Outcome.undefined s4
        | some srcB =>
          match k (Call.pwrite fd1 srcB countB offset) s4 with
          | (Ret.err e, s5) =>
            Outcome.returned (-((e : Nat) : Int)) (k (Call.close fd1) s5).2
          | (Ret.ok n _, s5) => Outcome.returned (toInt n) (k (Call.close fd1) s5).2

/-! ## Test data -/

def ctx0 : GlobalContext := { driveA := "/a", driveB := "/b" }

/-- Both replicas hold an empty regular file `x`; `rand()` answers `r`. -/
def disk0 (r : Nat) : Disk :=
  { files := [("/a/x", []), ("/b/x", [])], fds := [], noSpace := [], rands := [r] }

/-- A buffer of 600 bytes, byte `i` being `i % 251`. -/
def buf600 : List Nat := (List.range 600).map (fun i => i % 251)

/-- A buffer of 100 bytes. -/
def buf100 : List Nat := (List.range 100).map (fun i => i % 251)

/-- A staging pointer to 512 accessible bytes, all zero. -/
def stage512 : Ptr := Ptr.region (List.replicate 512 0)

/-- A buffer of `2^31 + 1` bytes. -/
def bigBuf : List Nat := List.replicate (2 ^ 31 + 1) 0

/-- A staging pointer to `2^31` accessible bytes. -/
def bigStage : Ptr := Ptr.region (List.replicate (2 ^ 31) 0)

/-- Both replicas hold an empty regular file `x`; replica A is out of space. -/
def diskAFull : Disk :=
  { files := [("/a/x", []), ("/b/x", [])], fds := [], noSpace := ["/a/x"], rands := [] }

/-- Both replicas hold a file `x` with the same three bytes; `rand()` answers `r`. -/
def diskX (r : Nat) : Disk :=
  { files := [("/a/x", [1, 2, 3]), ("/b/x", [1, 2, 3])], fds := [], noSpace := [], rands := [r] }

/-- Only replica A holds the file `x`. -/
def diskAOnly : Disk :=
  { files := [("/a/x", [1, 2, 3])], fds := [], noSpace := [], rands := [] }

/-! ## Lemmas -/

set_option maxRecDepth 1000000

theorem take_set_self (l : List Nat) (n b : Nat) : (l.set n b).take n = l.take n := by
  apply List.ext_getElem?
  intro i
  rw [List.getElem?_take, List.getElem?_take]
  split
  · next h => rw [List.getElem?_set_ne (by omega)]
  · rfl

theorem copyBytes_spec (buf : List Nat) (base : Nat) (mem : List Nat) (n : Nat)
    (hbuf : base + n ≤ buf.length) (hint : base + n ≤ 2 ^ 31) (hcap : n ≤ mem.length) :
    ∃ staged, copyBytes buf base (Ptr.region mem) n = some (Ptr.region staged) ∧
      staged.length = mem.length ∧ staged.take n = (buf.drop base).take n := by
  induction n with
  | zero => exact ⟨mem, rfl, rfl, by simp⟩
  | succ n ih =>
    obtain ⟨staged, hd, hlen, htake⟩ := ih (by omega) (by omega) (by omega)
    have hlt : base + n < buf.length := by omega
    have hno : ¬ (2 ^ 31 ≤ base + n) := by omega
    have hcap2 : n < staged.length := by omega
    refine ⟨staged.set n buf[base + n], ?_, ?_, ?_⟩
    · simp only [copyBytes, hd, if_neg hno, List.getElem?_eq_getElem hlt, if_pos hcap2]
    · simp [hlen]
    · rw [List.take_succ, take_set_self, htake, List.getElem?_set_self hcap2, List.take_succ]
      congr 1
      simp [List.getElem?_drop, List.getElem?_eq_getElem hlt]

theorem copyBytes_overflow (buf : List Nat) (base : Nat) (drive : Ptr) (m : Nat)
    (h : 2 ^ 31 ≤ base + m) : copyBytes buf base drive (m + 1) = none := by
  simp only [copyBytes]
  split
  · rfl
  · rfl
  · simp only [if_pos h]

theorem toInt_of_lt (x : Int) (h0 : 0 ≤ x) (h1 : x < 2 ^ 31) : toInt x = x := by
  unfold toInt
  norm_num at h1 ⊢
  omega

theorem xmp_write_eq_writeSeq {σ : Type} (k : Kernel σ) (ctx : GlobalContext)
    (driveA driveB : Ptr) (path : String) (buf : List Nat) (offset : Nat) (s : σ)
    (hfit : buf.length < 2 ^ 31 + 512) :
    xmp_write k ctx driveA driveB path buf buf.length offset s =
      writeSeq k ctx path
        ((copyBytes buf 0 driveA (min buf.length 512)).map
          (fun p => srcBytes p (min buf.length 512)))
        (min buf.length 512)
        (if 512 < buf.length then
          (copyBytes buf 512 driveB (buf.length - 512)).map
            (fun p => srcBytes p (buf.length - 512))
         else some (srcBytes driveB 0))
        (buf.length - 512) offset s := by
  unfold xmp_write writeSeq
  rcases h1 : k (Call.open_ (ctx.driveA ++ path) O_WRONLY) s with ⟨r1, s1⟩
  cases r1 with
  | err e => rfl
  | ok fd0 x0 =>
    by_cases hbig : buf.length > 512
    · have hspare : toInt ((buf.length : Int) - 512) = ((buf.length - 512 : Nat) : Int) := by
        rw [toInt_of_lt _ (by omega) (by norm_num at hfit ⊢; omega)]
        omega
      have hne : ((buf.length - 512 : Nat) : Int) ≠ 0 := by omega
      have hsz : toSizeT ((buf.length - 512 : Nat) : Int) = buf.length - 512 := by
        unfold toSizeT
        norm_num at hfit ⊢
        omega
      have hmin : min buf.length 512 = 512 := by omega
      have hlt : 512 < buf.length := hbig
      simp only [if_pos hbig, hspare, if_pos hne, Int.toNat_ofNat, hsz, hmin, if_pos hlt]
      cases hA : copyBytes buf 0 driveA 512 with
      | none => rfl
      | some stagedA =>
        simp only [Option.map_some']
        rcases h4 : k (Call.open_ (ctx.driveB ++ path) O_WRONLY)
          (k (Call.close fd0) (k (Call.pwrite fd0 (srcBytes stagedA 512) 512 offset) s1).2).2
          with ⟨r4, s4⟩
        cases r4 with
        | err e => rfl
        | ok fd1 x1 =>
          simp only []
          cases hB : copyBytes buf 512 driveB (buf.length - 512) with
          | none => rfl
          | some stagedB => rfl
    · have hz : toSizeT 0 = 0 := by decide
      have hmin : min buf.length 512 = buf.length := by omega
      have hlt : ¬ 512 < buf.length := hbig
      have hsub : buf.length - 512 = 0 := by omega
      simp only [if_neg hbig, ne_eq, not_true_eq_false, if_false, hz, hmin, if_neg hlt, hsub]
      cases hA : copyBytes buf 0 driveA buf.length with
      | none => rfl
      | some stagedA => rfl

theorem staged_src (buf : List Nat) (base : Nat) (mem : List Nat) (n : Nat)
    (hbuf : base + n ≤ buf.length) (hint : base + n ≤ 2 ^ 31) (hcap : n ≤ mem.length) :
    (copyBytes buf base (Ptr.region mem) n).map (fun p => srcBytes p n) =
      some (some ((buf.drop base).take n)) := by
  obtain ⟨staged, hc, hlen, htake⟩ := copyBytes_spec buf base mem n hbuf hint hcap
  have hle : n ≤ staged.length := by omega
  simp only [hc, Option.map_some', srcBytes, if_pos hle, htake]

theorem xmp_write_eq_staged {σ : Type} (k : Kernel σ) (ctx : GlobalContext)
    (memA : List Nat) (driveB : Ptr) (path : String) (buf : List Nat) (offset : Nat) (s : σ)
    (hL : buf.length ≤ 2 ^ 31) (hA : min buf.length 512 ≤ memA.length)
    (hB : 512 < buf.length →
      ∃ memB, driveB = Ptr.region memB ∧ buf.length - 512 ≤ memB.length) :
    xmp_write k ctx (Ptr.region memA) driveB path buf buf.length offset s =
      writeSeq k ctx path (some (some (buf.take 512))) (min buf.length 512)
        (some (if 512 < buf.length then some (buf.drop 512) else srcBytes driveB 0))
        (buf.length - 512) offset s := by
  have hpow : (2 : Nat) ^ 31 = 2147483648 := by norm_num
  rw [xmp_write_eq_writeSeq k ctx _ driveB path buf offset s (by omega)]
  have h1 := staged_src buf 0 memA (min buf.length 512) (by omega) (by omega) hA
  have h2 : (buf.drop 0).take (min buf.length 512) = buf.take 512 := by
    rw [List.drop_zero]
    rcases Nat.le_total buf.length 512 with h | h
    · rw [Nat.min_eq_left h, List.take_of_length_le h, List.take_of_length_le (le_refl _)]
    · rw [Nat.min_eq_right h]
  rw [h1, h2]
  by_cases hbig : 512 < buf.length
  · obtain ⟨memB, hdB, hcapB⟩ := hB hbig
    have h3 := staged_src buf 512 memB (buf.length - 512) (by omega) (by omega) hcapB
    have h4 : (buf.drop 512).take (buf.length - 512) = buf.drop 512 := by
      apply List.take_of_length_le
      simp
    rw [if_pos hbig, if_pos hbig, hdB, h3, h4]
  · rw [if_neg hbig, if_neg hbig]

theorem writeSeq_log {σ : Type} (k : Kernel σ) (ctx : GlobalContext)
    (path : String) (srcA srcB : Option (List Nat)) (countA countB offset : Nat) (s : σ)
    (hopen : opensSucceed
      (writeSeq (logged k) ctx path (some srcA) countA (some srcB) countB offset
        (s, [])).state.2 = true) :
    ∃ fdA xA rA cA fdB xB rB cB,
      (writeSeq (logged k) ctx path (some srcA) countA (some srcB) countB offset
          (s, [])).state.2 =
        [(Call.open_ (ctx.driveA ++ path) O_WRONLY, Ret.ok fdA xA),
         (Call.pwrite fdA srcA countA offset, rA),
         (Call.close fdA, cA),
         (Call.open_ (ctx.driveB ++ path) O_WRONLY, Ret.ok fdB xB),
         (Call.pwrite fdB srcB countB offset, rB),
         (Call.close fdB, cB)] ∧
      (writeSeq (logged k) ctx path (some srcA) countA (some srcB) countB offset
          (s, [])).result.isSome = true := by
  unfold writeSeq at hopen ⊢
  simp only [logged] at hopen ⊢
  rcases h1 : k (Call.open_ (ctx.driveA ++ path) O_WRONLY) s with ⟨r1, s1⟩
  rw [h1] at hopen
  cases r1 with
  | err e => simp [opensSucceed, Ret.isOk, Outcome.state] at hopen
  | ok fdA xA =>
    simp only [] at hopen ⊢
    rcases h4 : k (Call.open_ (ctx.driveB ++ path) O_WRONLY)
      (k (Call.close fdA) (k (Call.pwrite fdA srcA countA offset) s1).2).2 with ⟨r4, s4⟩
    rw [h4] at hopen
    cases r4 with
    | err e => simp [opensSucceed, Ret.isOk, Outcome.state] at hopen
    | ok fdB xB =>
      simp only []
      rcases h5 : k (Call.pwrite fdB srcB countB offset) s4 with ⟨r5, s5⟩
      refine ⟨fdA, xA, (k (Call.pwrite fdA srcA countA offset) s1).1,
        (k (Call.close fdA) (k (Call.pwrite fdA srcA countA offset) s1).2).1,
        fdB, xB, r5, (k (Call.close fdB) s5).1, ?_⟩
      cases r5 <;> simp [Outcome.state, Outcome.result]

theorem forEachReplica_aggregated {σ : Type} (k : Kernel σ) (call : String → Call)
    (pA pB : String) (s : σ) :
    Aggregated (k (call pA) s).1 (k (call pB) (k (call pA) s).2).1
      (forEachReplica k call [pA, pB] s).1 := by
  unfold Aggregated
  simp only [forEachReplica]
  rcases hA : k (call pA) s with ⟨rA, s1⟩
  cases rA with
  | err e =>
    refine ⟨?_, ?_, ?_⟩
    · simp [Ret.isOk]
    · intro e2 h2; cases h2; rfl
    · intro e2 h2; simp [Ret.isOk] at h2
  | ok v x =>
    simp only []
    rcases hB : k (call pB) s1 with ⟨rB, s2⟩
    cases rB with
    | err e =>
      refine ⟨?_, ?_, ?_⟩
      · simp [Ret.isOk]
      · intro e2 h2; cases h2
      · intro e2 _ h2; cases h2; rfl
    | ok v2 x2 =>
      refine ⟨?_, ?_, ?_⟩
      · simp [Ret.isOk]
      · intro e2 h2; cases h2
      · intro e2 _ h2; cases h2

theorem writeThenRead_eq {σ : Type} (k : Kernel σ) (ctx : GlobalContext) (driveA driveB : Ptr)
    (path : String) (buf : List Nat) (offset : Nat) (s : σ) :
    writeThenRead k ctx driveA driveB path buf offset s =
      match xmp_write k ctx driveA driveB path buf buf.length offset s with
      | Outcome.undefined _ => none
      | Outcome.returned w s1 => some (w, (xmp_read k ctx path buf.length offset s1).1) := rfl

theorem xmp_write_log_eq {σ : Type} (k : Kernel σ) (ctx : GlobalContext) (driveA driveB : Ptr)
    (path : String) (buf : List Nat) (size offset : Nat) (s : σ) :
    xmp_write_log k ctx driveA driveB path buf size offset s =
      (xmp_write (logged k) ctx driveA driveB path buf size offset (s, [])).state.2 := rfl

theorem bigBuf_eq : bigBuf = List.replicate (2 ^ 31 + 1) 0 := rfl

/-- A non-empty write through a `driveA` with no accessible memory behind it is
undefined at the first store of the staging loop, after A's file was opened
and before any `pwrite`. -/
theorem xmp_write_wild_driveA :
    xmp_write_log posix ctx0 Ptr.wild Ptr.wild "/x" buf100 100 0 (disk0 0) =
      [(Call.open_ "/a/x" O_WRONLY, Ret.ok 0 [])] ∧
    (xmp_write posix ctx0 Ptr.wild Ptr.wild "/x" buf100 100 0 (disk0 0)).result = none := by
  have hlen1 : buf100.length = 100 := by decide
  have h1 := xmp_write_eq_writeSeq (logged posix) ctx0 Ptr.wild Ptr.wild "/x" buf100 0
    (disk0 0, []) (by decide)
  have h2 := xmp_write_eq_writeSeq posix ctx0 Ptr.wild Ptr.wild "/x" buf100 0
    (disk0 0) (by decide)
  have hw : copyBytes buf100 0 Ptr.wild (min 100 512) = none := by decide
  rw [hlen1] at h1 h2
  rw [hw] at h1 h2
  rw [xmp_write_log_eq, h1, h2]
  decide

/-! ## The claims -/

/-- C1 (code at the failing input): after `xmp_write` of the 600-byte buffer at
offset 0 reports 88, the read of 600 bytes at offset 0 yields the first 512
bytes when `rand()` is even (replica A) and the last 88 bytes when it is odd
(replica B); neither is the buffer. -/
theorem read_after_write_600 :
    writeThenRead posix ctx0 stage512 stage512 "/x" buf600 0 (disk0 0) =
      some (88, (512, buf600.take 512)) ∧
    writeThenRead posix ctx0 stage512 stage512 "/x" buf600 0 (disk0 1) =
      some (88, (88, buf600.drop 512)) ∧
    buf600.take 512 ≠ buf600 ∧ buf600.drop 512 ≠ buf600 := by
  have h0 := xmp_write_eq_staged posix ctx0 (List.replicate 512 0) stage512 "/x" buf600 0
    (disk0 0) (by decide) (by decide) (fun _ => ⟨_, rfl, by decide⟩)
  have h1 := xmp_write_eq_staged posix ctx0 (List.replicate 512 0) stage512 "/x" buf600 0
    (disk0 1) (by decide) (by decide) (fun _ => ⟨_, rfl, by decide⟩)
  rw [writeThenRead_eq, writeThenRead_eq]
  rw [show stage512 = Ptr.region (List.replicate 512 0) from rfl] at h0 h1 ⊢
  rw [h0, h1]
  decide

/-- C2 (code at the failing input): for the 600-byte write at offset 0 the
write issued on replica B's descriptor carries the 88 tail bytes to offset 0,
not to offset 512, and replica B's file ends up 88 bytes long. -/
theorem xmp_write_tail_offset_600 :
    (xmp_write_log posix ctx0 stage512 stage512 "/x" buf600 600 0 (disk0 0)).map Prod.fst =
      [Call.open_ "/a/x" O_WRONLY, Call.pwrite 0 (some (buf600.take 512)) 512 0, Call.close 0,
       Call.open_ "/b/x" O_WRONLY, Call.pwrite 0 (some (buf600.drop 512)) 88 0,
       Call.close 0] ∧
    (buf600.drop 512).length = 88 ∧
    (xmp_write posix ctx0 stage512 stage512 "/x" buf600 600 0 (disk0 0)).state.files =
      [("/b/x", buf600.drop 512), ("/a/x", buf600.take 512)] := by
  have hlen : buf600.length = 600 := by decide
  have h0 := xmp_write_eq_staged posix ctx0 (List.replicate 512 0) stage512 "/x" buf600 0
    (disk0 0) (by decide) (by decide) (fun _ => ⟨_, rfl, by decide⟩)
  have h1 := xmp_write_eq_staged (logged posix) ctx0 (List.replicate 512 0) stage512 "/x"
    buf600 0 (disk0 0, []) (by decide) (by decide) (fun _ => ⟨_, rfl, by decide⟩)
  rw [hlen] at h0 h1
  rw [xmp_write_log_eq]
  rw [show stage512 = Ptr.region (List.replicate 512 0) from rfl] at h0 h1 ⊢
  rw [h0, h1]
  decide

/-- C3 (counterexample): for a buffer of `L = 2^31 + 1` bytes, `L - 512` fits in
a C `int` and both replica files open, yet the staging loop for replica B
computes the index `512 + f` in `int` past `INT_MAX`: the run is undefined
after the opening of replica B's file and no payload is handed to replica B. -/
theorem xmp_write_index_overflow :
    bigBuf.length = 2 ^ 31 + 1 ∧ ((bigBuf.length : Int) - 512 < 2 ^ 31) ∧
    (xmp_write (logged posix) ctx0 stage512 bigStage "/x" bigBuf bigBuf.length 0
      (disk0 0, [])).result = none ∧
    xmp_write_log posix ctx0 stage512 bigStage "/x" bigBuf bigBuf.length 0 (disk0 0) =
      [(Call.open_ "/a/x" O_WRONLY, Ret.ok 0 []),
       (Call.pwrite 0 (some (List.replicate 512 0)) 512 0, Ret.ok 512 []),
       (Call.close 0, Ret.ok 0 []),
       (Call.open_ "/b/x" O_WRONLY, Ret.ok 0 [])] := by
  have hlen : bigBuf.length = 2147483649 := by
    rw [bigBuf_eq, List.length_replicate]
    norm_num
  have h := xmp_write_eq_writeSeq (logged posix) ctx0 stage512 bigStage "/x" bigBuf 0
    (disk0 0, []) (by rw [hlen]; norm_num)
  have hmin : min bigBuf.length 512 = 512 := by rw [hlen]; norm_num
  have hlt : 512 < bigBuf.length := by rw [hlen]; norm_num
  have hsub : bigBuf.length - 512 = 2147483137 := by rw [hlen]
  have hA : (copyBytes bigBuf 0 stage512 512).map (fun p => srcBytes p 512) =
      some (some (List.replicate 512 0)) := by
    have h2 := staged_src bigBuf 0 (List.replicate 512 0) 512 (by rw [hlen]; norm_num)
      (by norm_num) (by rw [List.length_replicate])
    have h3 : (bigBuf.drop 0).take 512 = List.replicate 512 0 := by
      rw [bigBuf_eq, List.drop_zero, List.take_replicate, Nat.min_eq_left (by norm_num)]
    rw [h3] at h2
    exact h2
  have hB : copyBytes bigBuf 512 bigStage 2147483137 = none :=
    copyBytes_overflow bigBuf 512 bigStage 2147483136 (by norm_num)
  rw [xmp_write_log_eq]
  rw [h]
  simp only [hmin, if_pos hlt, hsub, hA, hB, Option.map_none']
  refine ⟨by rw [hlen]; norm_num, by rw [hlen]; norm_num, ?_, ?_⟩ <;> decide

/-- C3 (amended): when the buffer length `L` is at most `2^31` (every index
`512 + f` fits in a C `int`), the staging pointers point to accessible regions
large enough for the two payloads, and both replica files open, `xmp_write`
reads no byte outside the buffer and issues exactly one write per replica, each
on the descriptor its `open` returned: replica A is handed the bytes at indices
`[0, min L 512)` and replica B the bytes at indices `[512, L)` (none when
`L ≤ 512`); the two payloads concatenate to the buffer and their lengths add up
to `L`. -/
theorem xmp_write_partition {σ : Type} (k : Kernel σ) (ctx : GlobalContext)
    (memA memB : List Nat) (path : String) (buf : List Nat) (offset : Nat) (s : σ)
    (hL : buf.length ≤ 2 ^ 31)
    (hA : min buf.length 512 ≤ memA.length) (hB : buf.length - 512 ≤ memB.length)
    (hopen : opensSucceed
      (xmp_write_log k ctx (Ptr.region memA) (Ptr.region memB) path buf buf.length
        offset s) = true) :
    (xmp_write (logged k) ctx (Ptr.region memA) (Ptr.region memB) path buf buf.length offset
      (s, [])).result.isSome = true ∧
    ∃ fdA xA rA cA fdB xB rB cB payloadA payloadB,
      xmp_write_log k ctx (Ptr.region memA) (Ptr.region memB) path buf buf.length offset s =
        [(Call.open_ (ctx.driveA ++ path) O_WRONLY, Ret.ok fdA xA),
         (Call.pwrite fdA (some payloadA) payloadA.length offset, rA),
         (Call.close fdA, cA),
         (Call.open_ (ctx.driveB ++ path) O_WRONLY, Ret.ok fdB xB),
         (Call.pwrite fdB (some payloadB) payloadB.length offset, rB),
         (Call.close fdB, cB)] ∧
      payloadA = buf.take (min buf.length 512) ∧
      payloadB = buf.drop 512 ∧
      payloadA ++ payloadB = buf ∧
      payloadA.length + payloadB.length = buf.length := by
  have hw := xmp_write_eq_staged (logged k) ctx memA (Ptr.region memB) path buf offset (s, [])
    hL hA (fun _ => ⟨memB, rfl, hB⟩)
  have hsrcB : (if 512 < buf.length then some (buf.drop 512)
      else srcBytes (Ptr.region memB) 0) = some (buf.drop 512) := by
    by_cases hbig : 512 < buf.length
    · rw [if_pos hbig]
    · rw [if_neg hbig, List.drop_of_length_le (by omega)]
      simp [srcBytes]
  rw [hsrcB] at hw
  rw [xmp_write_log_eq] at hopen ⊢
  rw [hw] at hopen ⊢
  obtain ⟨fdA, xA, rA, cA, fdB, xB, rB, cB, hlog, hres⟩ :=
    writeSeq_log k ctx path _ _ _ _ offset s hopen
  have hlenA : (buf.take 512).length = min buf.length 512 := by
    rw [List.length_take, Nat.min_comm]
  have hlenB : (buf.drop 512).length = buf.length - 512 := List.length_drop 512 buf
  refine ⟨hres, fdA, xA, rA, cA, fdB, xB, rB, cB, buf.take 512, buf.drop 512, ?_, ?_, rfl, ?_, ?_⟩
  · rw [hlenA, hlenB]
    exact hlog
  · rcases Nat.le_total buf.length 512 with h | h
    · rw [Nat.min_eq_left h, List.take_of_length_le h, List.take_of_length_le (le_refl _)]
    · rw [Nat.min_eq_right h]
  · exact List.take_append_drop 512 buf
  · rw [hlenA, hlenB]
    omega

/-- C3 (witness): the 600-byte buffer written at offset 0 on the concrete
kernel, with two staging regions of 512 bytes. -/
theorem xmp_write_partition_witness :
    buf600.length ≤ 2 ^ 31 ∧
    min buf600.length 512 ≤ (List.replicate 512 0).length ∧
    buf600.length - 512 ≤ (List.replicate 512 0).length ∧
    opensSucceed
      (xmp_write_log posix ctx0 (Ptr.region (List.replicate 512 0))
        (Ptr.region (List.replicate 512 0)) "/x" buf600 buf600.length 0 (disk0 0)) = true ∧
    ((xmp_write (logged posix) ctx0 (Ptr.region (List.replicate 512 0))
        (Ptr.region (List.replicate 512 0)) "/x" buf600 buf600.length 0
        (disk0 0, [])).result.isSome = true ∧
      ∃ fdA xA rA cA fdB xB rB cB payloadA payloadB,
        xmp_write_log posix ctx0 (Ptr.region (List.replicate 512 0))
            (Ptr.region (List.replicate 512 0)) "/x" buf600 buf600.length 0 (disk0 0) =
          [(Call.open_ (ctx0.driveA ++ "/x") O_WRONLY, Ret.ok fdA xA),
           (Call.pwrite fdA (some payloadA) payloadA.length 0, rA),
           (Call.close fdA, cA),
           (Call.open_ (ctx0.driveB ++ "/x") O_WRONLY, Ret.ok fdB xB),
           (Call.pwrite fdB (some payloadB) payloadB.length 0, rB),
           (Call.close fdB, cB)] ∧
        payloadA = buf600.take (min buf600.length 512) ∧
        payloadB = buf600.drop 512 ∧
        payloadA ++ payloadB = buf600 ∧
        payloadA.length + payloadB.length = buf600.length) :=
  have hopen : opensSucceed
      (xmp_write_log posix ctx0 (Ptr.region (List.replicate 512 0))
        (Ptr.region (List.replicate 512 0)) "/x" buf600 buf600.length 0 (disk0 0)) = true := by
    rw [xmp_write_log_eq]
    rw [xmp_write_eq_staged (logged posix) ctx0 (List.replicate 512 0) _ "/x" buf600 0
      (disk0 0, []) (by decide) (by decide) (fun _ => ⟨_, rfl, by decide⟩)]
    decide
  ⟨by decide, by decide, by decide, hopen,
    xmp_write_partition posix ctx0 (List.replicate 512 0) (List.replicate 512 0) "/x" buf600 0
      (disk0 0) (by decide) (by decide) (by decide) hopen⟩

/-- C4: each of the nine mirrored callbacks aggregates the two per-replica
answers of its underlying call as stated: it returns 0 exactly when the call
succeeds on replica A and on replica B, returns `-e` when the call on A fails
with error `e` (whatever B would answer), and returns `-e` when A succeeds and
B fails with `e`; the error number is passed through unchanged. -/
theorem mirrored_error_aggregation {σ : Type} (k : Kernel σ) (ctx : GlobalContext)
    (path name : String) (mode uid gid size atime mtime flags : Nat) (value : List Nat) (s : σ) :
    Aggregated (k (Call.mkdir (ctx.driveA ++ path) mode) s).1
      (k (Call.mkdir (ctx.driveB ++ path) mode) (k (Call.mkdir (ctx.driveA ++ path) mode) s).2).1
      (xmp_mkdir k ctx path mode s).1 ∧
    Aggregated (k (Call.unlink (ctx.driveA ++ path)) s).1
      (k (Call.unlink (ctx.driveB ++ path)) (k (Call.unlink (ctx.driveA ++ path)) s).2).1
      (xmp_unlink k ctx path s).1 ∧
    Aggregated (k (Call.rmdir (ctx.driveA ++ path)) s).1
      (k (Call.rmdir (ctx.driveB ++ path)) (k (Call.rmdir (ctx.driveA ++ path)) s).2).1
      (xmp_rmdir k ctx path s).1 ∧
    Aggregated (k (Call.chmod (ctx.driveA ++ path) mode) s).1
      (k (Call.chmod (ctx.driveB ++ path) mode) (k (Call.chmod (ctx.driveA ++ path) mode) s).2).1
      (xmp_chmod k ctx path mode s).1 ∧
    Aggregated (k (Call.lchown (ctx.driveA ++ path) uid gid) s).1
      (k (Call.lchown (ctx.driveB ++ path) uid gid)
        (k (Call.lchown (ctx.driveA ++ path) uid gid) s).2).1
      (xmp_chown k ctx path uid gid s).1 ∧
    Aggregated (k (Call.truncate (ctx.driveA ++ path) size) s).1
      (k (Call.truncate (ctx.driveB ++ path) size)
        (k (Call.truncate (ctx.driveA ++ path) size) s).2).1
      (xmp_truncate k ctx path size s).1 ∧
    Aggregated (k (Call.utimensat (ctx.driveA ++ path) atime mtime) s).1
      (k (Call.utimensat (ctx.driveB ++ path) atime mtime)
        (k (Call.utimensat (ctx.driveA ++ path) atime mtime) s).2).1
      (xmp_utimens k ctx path atime mtime s).1 ∧
    Aggregated (k (Call.lsetxattr (ctx.driveA ++ path) name value flags) s).1
      (k (Call.lsetxattr (ctx.driveB ++ path) name value flags)
        (k (Call.lsetxattr (ctx.driveA ++ path) name value flags) s).2).1
      (xmp_setxattr k ctx path name value flags s).1 ∧
    Aggregated (k (Call.lremovexattr (ctx.driveA ++ path) name) s).1
      (k (Call.lremovexattr (ctx.driveB ++ path) name)
        (k (Call.lremovexattr (ctx.driveA ++ path) name) s).2).1
      (xmp_removexattr k ctx path name s).1 :=
  ⟨forEachReplica_aggregated k _ _ _ s, forEachReplica_aggregated k _ _ _ s,
   forEachReplica_aggregated k _ _ _ s, forEachReplica_aggregated k _ _ _ s,
   forEachReplica_aggregated k _ _ _ s, forEachReplica_aggregated k _ _ _ s,
   forEachReplica_aggregated k _ _ _ s, forEachReplica_aggregated k _ _ _ s,
   forEachReplica_aggregated k _ _ _ s⟩

/-- C4 (witness): `xmp_unlink` when only replica A holds the file: A succeeds, B
answers `ENOENT`, the callback returns `-ENOENT`. -/
theorem mirrored_error_aggregation_witness :
    (posix (Call.unlink (ctx0.driveA ++ "/x")) diskAOnly).1 = Ret.ok 0 [] ∧
    (posix (Call.unlink (ctx0.driveB ++ "/x"))
      (posix (Call.unlink (ctx0.driveA ++ "/x")) diskAOnly).2).1 = Ret.err ENOENT ∧
    (xmp_unlink posix ctx0 "/x" diskAOnly).1 = -2 ∧
    Aggregated (posix (Call.unlink (ctx0.driveA ++ "/x")) diskAOnly).1
      (posix (Call.unlink (ctx0.driveB ++ "/x"))
        (posix (Call.unlink (ctx0.driveA ++ "/x")) diskAOnly).2).1
      (xmp_unlink posix ctx0 "/x" diskAOnly).1 :=
  ⟨by decide, by decide, by decide,
    (mirrored_error_aggregation posix ctx0 "/x" "" 0 0 0 0 0 0 0 [] diskAOnly).2.1⟩

/-- C5 (code at the failing input): with replica A out of space, the write on
A answers `ENOSPC`, the write on B accepts its 88 bytes, and `xmp_write`
returns 88. -/
theorem xmp_write_replicaA_full :
    xmp_write_log posix ctx0 stage512 stage512 "/x" buf600 600 0 diskAFull =
      [(Call.open_ "/a/x" O_WRONLY, Ret.ok 0 []),
       (Call.pwrite 0 (some (buf600.take 512)) 512 0, Ret.err ENOSPC),
       (Call.close 0, Ret.ok 0 []),
       (Call.open_ "/b/x" O_WRONLY, Ret.ok 0 []),
       (Call.pwrite 0 (some (buf600.drop 512)) 88 0, Ret.ok 88 []),
       (Call.close 0, Ret.ok 0 [])] ∧
    (xmp_write posix ctx0 stage512 stage512 "/x" buf600 600 0 diskAFull).result =
      some 88 := by
  have hlen : buf600.length = 600 := by decide
  have h0 := xmp_write_eq_staged posix ctx0 (List.replicate 512 0) stage512 "/x" buf600 0
    diskAFull (by decide) (by decide) (fun _ => ⟨_, rfl, by decide⟩)
  have h1 := xmp_write_eq_staged (logged posix) ctx0 (List.replicate 512 0) stage512 "/x"
    buf600 0 (diskAFull, []) (by decide) (by decide) (fun _ => ⟨_, rfl, by decide⟩)
  rw [hlen] at h0 h1
  rw [xmp_write_log_eq]
  rw [show stage512 = Ptr.region (List.replicate 512 0) from rfl] at h0 h1 ⊢
  rw [h0, h1]
  decide

/-- C6 (code at the failing inputs): when each replica accepts every byte
offered, a 100-byte write returns 0 and a 600-byte write returns 88 (the count
accepted by replica B alone). -/
theorem xmp_write_count_100_600 :
    (xmp_write_log posix ctx0 stage512 stage512 "/x" buf100 100 0 (disk0 0)).map Prod.snd =
      [Ret.ok 0 [], Ret.ok 100 [], Ret.ok 0 [], Ret.ok 0 [], Ret.ok 0 [], Ret.ok 0 []] ∧
    (xmp_write posix ctx0 stage512 stage512 "/x" buf100 100 0 (disk0 0)).result = some 0 ∧
    (xmp_write_log posix ctx0 stage512 stage512 "/x" buf600 600 0 (disk0 0)).map Prod.snd =
      [Ret.ok 0 [], Ret.ok 512 [], Ret.ok 0 [], Ret.ok 0 [], Ret.ok 88 [], Ret.ok 0 []] ∧
    (xmp_write posix ctx0 stage512 stage512 "/x" buf600 600 0 (disk0 0)).result =
      some 88 := by
  have hlen : buf600.length = 600 := by decide
  have hlen1 : buf100.length = 100 := by decide
  have h0 := xmp_write_eq_staged posix ctx0 (List.replicate 512 0) stage512 "/x" buf600 0
    (disk0 0) (by decide) (by decide) (fun _ => ⟨_, rfl, by decide⟩)
  have h1 := xmp_write_eq_staged (logged posix) ctx0 (List.replicate 512 0) stage512 "/x"
    buf600 0 (disk0 0, []) (by decide) (by decide) (fun _ => ⟨_, rfl, by decide⟩)
  have h2 := xmp_write_eq_staged posix ctx0 (List.replicate 512 0) stage512 "/x" buf100 0
    (disk0 0) (by decide) (by decide) (fun h => absurd h (by decide))
  have h3 := xmp_write_eq_staged (logged posix) ctx0 (List.replicate 512 0) stage512 "/x"
    buf100 0 (disk0 0, []) (by decide) (by decide) (fun h => absurd h (by decide))
  rw [hlen] at h0 h1
  rw [hlen1] at h2 h3
  rw [xmp_write_log_eq, xmp_write_log_eq]
  rw [show stage512 = Ptr.region (List.replicate 512 0) from rfl] at h0 h1 h2 h3 ⊢
  rw [h0, h1, h2, h3]
  decide

/-- C8 (code at the failing input): with `/x` present with the same content on
both replicas and `/y` on neither, `xmp_rename` returns `-ENOENT` for either
parity of `rand()`; afterwards only replica A holds `/y`, and one replica
still holds `/x`. -/
theorem xmp_rename_x_y :
    xmp_rename posix ctx0 "/x" "/y" (diskX 0) =
      (-2, { files := [("/a/y", [1, 2, 3]), ("/b/x", [1, 2, 3])],
             fds := [], noSpace := [], rands := [] }) ∧
    xmp_rename posix ctx0 "/x" "/y" (diskX 1) =
      (-2, { files := [("/a/y", [1, 2, 3]), ("/a/x", [1, 2, 3])],
             fds := [], noSpace := [], rands := [] }) := by
  decide

/-- C9 (code at the failing input): with replica A out of space, the
allocation on A answers `ENOSPC`, the allocation on B succeeds, and
`xmp_fallocate` returns 0. -/
theorem xmp_fallocate_replicaA_full :
    xmp_fallocate_log posix ctx0 "/x" 0 0 4096 diskAFull =
      [(Call.open_ "/a/x" O_WRONLY, Ret.ok 0 []),
       (Call.posix_fallocate 0 0 4096, Ret.err ENOSPC),
       (Call.close 0, Ret.ok 0 []),
       (Call.open_ "/b/x" O_WRONLY, Ret.ok 0 []),
       (Call.posix_fallocate 0 0 4096, Ret.ok 0 []),
       (Call.close 0, Ret.ok 0 [])] ∧
    (xmp_fallocate posix ctx0 "/x" 0 0 4096 diskAFull).1 = 0 := by
  decide

/-- C10 (code at the failing input): for `./myfs /mnt /driveA /driveB` the
root of replica A is set to the last argument and the root of replica B to the
one before it; the first two arguments go on to `fuse_main`. -/
theorem main_drive_order :
    main ["./myfs", "/mnt", "/driveA", "/driveB"] =
      MainResult.mounted { driveA := "/driveB", driveB := "/driveA" } ["./myfs", "/mnt"] := by
  decide

end Myfs
